import Mathlib

/-!
Verification of the lead-extraction / CRM-write pipeline.

The Python modules `gemini_processor.py` and `attio_client.py` are shallowly
embedded below.  Text is modelled as `List Char`; every outbound network call
(model generation, CRM POST/PATCH) is an oracle parameter supplied to the
embedded control flow, so the flow functions are pure and executable.
-/

/-- Text, modelled as a list of characters. -/
abbrev Str := List Char

/-- Convert a Lean string literal to the `Str` model. -/
def str (s : String) : Str := s.data

/-- ASCII left brace (written by code point to keep literals plain). -/
def lbrace : Char := Char.ofNat 123

/-- ASCII right brace. -/
def rbrace : Char := Char.ofNat 125

/-- Left curly (typographic) double quote U+201C. -/
def lcurly : Char := Char.ofNat 8220

/-- Right curly (typographic) double quote U+201D. -/
def rcurly : Char := Char.ofNat 8221

/-- Python `str.strip()` whitespace set, restricted to ASCII. -/
def isPySpace (c : Char) : Bool :=
  c == ' ' || c == '\t' || c == '\n' || c == '\x0d' || c == '\x0b' || c == '\x0c'

/-- Python `s.strip()` (ASCII whitespace). -/
def pyStrip (s : Str) : Str :=
  ((s.dropWhile isPySpace).reverse.dropWhile isPySpace).reverse

/-- Python `s.strip('/')`. -/
def pyStripSlash (s : Str) : Str :=
  ((s.dropWhile (fun c => c == '/')).reverse.dropWhile (fun c => c == '/')).reverse

/-- Python `s.lower()` (ASCII). -/
def toLowerStr (s : Str) : Str := s.map Char.toLower

/-- Substring test: Python `needle in hay`. -/
def containsSub (n : Str) : Str → Bool
  | [] => n.isEmpty
  | c :: rest => n.isPrefixOf (c :: rest) || containsSub n rest

/-- Python `s.replace(old, new)` (left-to-right, non-overlapping); the fuel
argument bounds the scan and equals the input length at the top call. -/
def pyReplaceGo (old new : Str) : Nat → Str → Str
  | _, [] => []
  | 0, h => h
  | fuel + 1, c :: rest =>
    if old.isPrefixOf (c :: rest) then
      new ++ pyReplaceGo old new fuel ((c :: rest).drop old.length)
    else
      c :: pyReplaceGo old new fuel rest

/-- Python `s.replace(old, new)` for a non-empty `old`. -/
def pyReplace (old new h : Str) : Str := pyReplaceGo old new h.length h

/-- Python `s.capitalize()`: first character upper-cased, the rest lower-cased. -/
def pyCapitalize : Str → Str
  | [] => []
  | c :: rest => c.toUpper :: rest.map Char.toLower

/-- Python `s.title()` (ASCII): a cased character that follows a non-cased one
is upper-cased, every other cased character is lower-cased. -/
def pyTitleGo : Bool → Str → Str
  | _, [] => []
  | prevCased, c :: rest =>
    if c.isAlpha then
      (if prevCased then c.toLower else c.toUpper) :: pyTitleGo true rest
    else
      c :: pyTitleGo false rest

/-- Python `s.title()` (ASCII). -/
def pyTitle (s : Str) : Str := pyTitleGo false s

/-- Python `s.split(sep)[…]` for a one-character separator: full split list. -/
def splitOnChar (sep : Char) : Str → List Str
  | [] => [[]]
  | c :: rest =>
    if c == sep then [] :: splitOnChar sep rest
    else
      match splitOnChar sep rest with
      | h :: t => (c :: h) :: t
      | [] => [[c]]

/-- Truthiness of an optional string, as Python `if value:`. -/
def optTruthy : Option Str → Option Str
  | none => none
  | some s => if s.isEmpty then none else some s

/-- Boolean form of `optTruthy`. -/
def truthy (o : Option Str) : Bool := (optTruthy o).isSome

/-! ## Model Gateway (`gemini_processor.call_gemini_api`,
`attio_client.AttioClient._is_quota_error`) -/

/-- The fixed quota/rate-limit signature list of `_is_quota_error`
(`gemini_processor.py` lines 134-141, identical copy in `attio_client.py`
lines 325-332). -/
def quotaIndicators : List Str :=
  [str "quota", str "rate limit", str "resource exhausted", str "429",
   str "too many requests", str "limit exceeded"]

/-- Function `_is_quota_error`: case-insensitive substring match against the fixed
signature list. -/
def isQuotaError (e : Str) : Bool :=
  quotaIndicators.any (fun ind => containsSub ind (toLowerStr e))

/-- Outcome of one `model.generate_content` call: the exception text, or the
returned `response.text` (the empty string models falsy text). -/
abbrev GenOracle := Bool → Except Str Str

/-- The body of `call_gemini_api`'s `try` block for one tier: an empty
response raises `GeminiProcessingError("Empty response from Gemini API")`,
which the surrounding `except` then observes like any other error. -/
def geminiAttempt (gen : GenOracle) (useFallback : Bool) : Except Str Str :=
  match gen useFallback with
  | .ok t => if t.isEmpty then .error (str "Empty response from Gemini API") else .ok t
  | .error m => .error m

/-- Message of the `GeminiProcessingError` raised when a tier's error is not
retried: the Python f-string "API request failed: " followed by the error text. -/
def apiFailMsg (m : Str) : Str := str "API request failed: " ++ m

/-- Message of the combined failure raised when the fallback retry also
fails: "Both models failed. Primary: ", the primary error text, ", Fallback: " and the fallback error text. -/
def bothFailMsg (m fb : Str) : Str :=
  str "Both models failed. Primary: " ++ m ++ str ", Fallback: " ++ fb

/-- Function `call_gemini_api(message, use_fallback=True)`: the recursion of the source
unrolled at its base tier (with `use_fallback` true the quota branch is never
taken).  The second component counts `generate_content` attempts. -/
def callGeminiFallbackTier (gen : GenOracle) : Except Str Str × Nat :=
  match geminiAttempt gen true with
  | .ok t => (.ok t, 1)
  | .error m => (.error (apiFailMsg m), 1)

/-- Function `call_gemini_api` (`gemini_processor.py` lines 145-201).  On a primary
failure whose text matches a quota signature, the source recursively calls
itself once with `use_fallback=True`; any error of that call (already wrapped
as `API request failed: …`) is reported inside the combined message. -/
def callGeminiApi (gen : GenOracle) (useFallback : Bool) : Except Str Str × Nat :=
  if useFallback then callGeminiFallbackTier gen
  else
    match geminiAttempt gen false with
    | .ok t => (.ok t, 1)
    | .error m =>
      if isQuotaError m then
        match callGeminiFallbackTier gen with
        | (.ok t, n) => (.ok t, n + 1)
        | (.error fbMsg, n) => (.error (bothFailMsg m fbMsg), n + 1)
      else (.error (apiFailMsg m), 1)

/-! ## Enrichment Lookup (`AttioClient._search_company_website`) -/

/-- The post-processing of the model's reply (`attio_client.py` lines
378-383): strip, lower-case, then `str.replace` of every occurrence of
`https://`, `http://` and `www.`, then `strip('/')`. -/
def cleanWebsite (t : Str) : Str :=
  pyStripSlash
    (pyReplace (str "www.") []
      (pyReplace (str "http://") []
        (pyReplace (str "https://") []
          (toLowerStr (pyStrip t)))))

/-- Lines 386-391: the cleaned text is returned only when it is not the
literal `none`, contains a dot and contains no space character. -/
def websiteOf (t : Str) : Option Str :=
  let w := cleanWebsite t
  if w ≠ str "none" ∧ w.contains '.' = true ∧ w.contains ' ' = false then some w
  else none

/-- One tier of `_search_company_website`: a falsy `response.text` yields
`None` (line 393); otherwise the cleaned-and-checked domain. -/
def searchStep (resp : Except Str Str) : Except Str (Option Str) :=
  match resp with
  | .ok t => if t.isEmpty then .ok none else .ok (websiteOf t)
  | .error m => .error m

/-- Function `_search_company_website` (`attio_client.py` lines 335-407), with the
recursion unrolled at the fallback tier; every failure path returns `none`.
The second component counts `generate_content` attempts. -/
def searchCompanyWebsite (gen : GenOracle) (useFallback : Bool) : Option Str × Nat :=
  if useFallback then
    match searchStep (gen true) with
    | .ok r => (r, 1)
    | .error _ => (none, 1)
  else
    match searchStep (gen false) with
    | .ok r => (r, 1)
    | .error m =>
      if isQuotaError m then
        match searchStep (gen true) with
        | .ok r => (r, 2)
        | .error _ => (none, 2)
      else (none, 1)

/-! ## JSON values and `json.loads` (used by `parse_gemini_response`) -/

mutual

/-- A parsed JSON value.  Number literals and string bodies are kept verbatim
(escape sequences undecoded); object members keep their textual order. -/
inductive JVal where
  | jnull : JVal
  | jtrue : JVal
  | jfalse : JVal
  | jnum (lit : Str) : JVal
  | jstr (raw : Str) : JVal
  | jarr (elems : JVals) : JVal
  | jobj (members : JMembers) : JVal
deriving DecidableEq, Repr

/-- A list of JSON array elements. -/
inductive JVals where
  | nil : JVals
  | cons (v : JVal) (rest : JVals) : JVals
deriving DecidableEq, Repr

/-- A list of JSON object members, in textual order. -/
inductive JMembers where
  | nil : JMembers
  | cons (key : Str) (v : JVal) (rest : JMembers) : JMembers
deriving DecidableEq, Repr

end

/-- JSON inter-token whitespace accepted by `json.loads`. -/
def isJsonWs (c : Char) : Bool := c == ' ' || c == '\t' || c == '\n' || c == '\x0d'

/-- Skip JSON whitespace. -/
def skipWs (cs : Str) : Str := cs.dropWhile isJsonWs

/-- Hexadecimal digit test for `\uXXXX` escapes. -/
def isHexChar (c : Char) : Bool :=
  c.isDigit || ('a' ≤ c && c ≤ 'f') || ('A' ≤ c && c ≤ 'F')

/-- Single-character escapes accepted after a backslash in a JSON string. -/
def jsonEscChars : List Char := ['"', '\\', '/', 'b', 'f', 'n', 'r', 't']

/-- Parse the body of a JSON string after the opening quote, returning the raw
body and the rest of the input; control characters are rejected (strict mode). -/
def parseStrBody : Nat → Str → Option (Str × Str)
  | 0, _ => none
  | fuel + 1, cs =>
    match cs with
    | [] => none
    | c :: rest =>
      if c = '"' then some ([], rest)
      else if c = '\\' then
        match rest with
        | [] => none
        | e :: rest2 =>
          if e = 'u' then
            match rest2 with
            | h1 :: h2 :: h3 :: h4 :: rest3 =>
              if isHexChar h1 && isHexChar h2 && isHexChar h3 && isHexChar h4 then
                match parseStrBody fuel rest3 with
                | some (body, rem) => some (c :: e :: h1 :: h2 :: h3 :: h4 :: body, rem)
                | none => none
              else none
            | _ => none
          else if jsonEscChars.contains e then
            match parseStrBody fuel rest2 with
            | some (body, rem) => some (c :: e :: body, rem)
            | none => none
          else none
      else if c.toNat < 32 then none
      else
        match parseStrBody fuel rest with
        | some (body, rem) => some (c :: body, rem)
        | none => none

/-- Parse a JSON number literal `-?(0|[1-9][0-9]*)(\.[0-9]+)?([eE][+-]?[0-9]+)?`,
returning the literal and the rest. -/
def parseNum (cs : Str) : Option (Str × Str) :=
  let signed : Str × Str :=
    match cs with
    | c :: r => if c = '-' then (['-'], r) else ([], cs)
    | [] => ([], cs)
  match signed.2 with
  | [] => none
  | d :: r =>
    if !d.isDigit then none
    else
      let intRest : Str × Str :=
        if d = '0' then (['0'], r)
        else (d :: r.takeWhile Char.isDigit, r.dropWhile Char.isDigit)
      let fracRest : Str × Str :=
        match intRest.2 with
        | '.' :: f :: fr =>
          if f.isDigit then
            ('.' :: f :: fr.takeWhile Char.isDigit, fr.dropWhile Char.isDigit)
          else ([], intRest.2)
        | _ => ([], intRest.2)
      let expRest : Str × Str :=
        match fracRest.2 with
        | e :: er =>
          if e = 'e' ∨ e = 'E' then
            match er with
            | s :: sr =>
              if s = '+' ∨ s = '-' then
                match sr with
                | d2 :: dr =>
                  if d2.isDigit then
                    (e :: s :: d2 :: dr.takeWhile Char.isDigit, dr.dropWhile Char.isDigit)
                  else ([], fracRest.2)
                | [] => ([], fracRest.2)
              else if s.isDigit then
                (e :: s :: sr.takeWhile Char.isDigit, sr.dropWhile Char.isDigit)
              else ([], fracRest.2)
            | [] => ([], fracRest.2)
          else ([], fracRest.2)
        | [] => ([], fracRest.2)
      some (signed.1 ++ intRest.1 ++ fracRest.1 ++ expRest.1, expRest.2)

mutual

/-- Parse one JSON value (with leading whitespace), returning it and the rest. -/
def parseVal : Nat → Str → Option (JVal × Str)
  | 0, _ => none
  | fuel + 1, cs0 =>
    let cs := skipWs cs0
    match cs with
    | [] => none
    | c :: rest =>
      if c = '"' then
        match parseStrBody (rest.length + 1) rest with
        | some (body, rem) => some (.jstr body, rem)
        | none => none
      else if c = lbrace then parseObjRest fuel rest
      else if c = '[' then parseArrRest fuel rest
      else if (str "true").isPrefixOf cs then some (.jtrue, cs.drop 4)
      else if (str "false").isPrefixOf cs then some (.jfalse, cs.drop 5)
      else if (str "null").isPrefixOf cs then some (.jnull, cs.drop 4)
      else if (str "NaN").isPrefixOf cs then some (.jnum (str "NaN"), cs.drop 3)
      else if (str "Infinity").isPrefixOf cs then some (.jnum (str "Infinity"), cs.drop 8)
      else if (str "-Infinity").isPrefixOf cs then some (.jnum (str "-Infinity"), cs.drop 9)
      else
        match parseNum cs with
        | some (lit, rem) => some (.jnum lit, rem)
        | none => none

/-- Parse the members of a JSON object after the opening brace. -/
def parseObjRest : Nat → Str → Option (JVal × Str)
  | 0, _ => none
  | fuel + 1, cs0 =>
    let cs := skipWs cs0
    match cs with
    | [] => none
    | c :: _ =>
      if c = rbrace then some (.jobj .nil, cs.drop 1)
      else
        match parseMembers fuel cs with
        | some (ms, rem) => some (.jobj ms, rem)
        | none => none

/-- Parse a non-empty member list `"key": value (, "key": value)*` followed by
the closing brace. -/
def parseMembers : Nat → Str → Option (JMembers × Str)
  | 0, _ => none
  | fuel + 1, cs0 =>
    let cs := skipWs cs0
    match cs with
    | [] => none
    | c :: rest =>
      if c = '"' then
        match parseStrBody (rest.length + 1) rest with
        | some (key, rem) =>
          match skipWs rem with
          | ':' :: rem2 =>
            match parseVal fuel rem2 with
            | some (v, rem3) =>
              match skipWs rem3 with
              | ',' :: rem4 =>
                match parseMembers fuel rem4 with
                | some (ms, rem5) => some (.cons key v ms, rem5)
                | none => none
              | c2 :: rem4 =>
                if c2 = rbrace then some (.cons key v .nil, rem4) else none
              | [] => none
            | none => none
          | _ => none
        | none => none
      else none

/-- Parse the elements of a JSON array after the opening bracket. -/
def parseArrRest : Nat → Str → Option (JVal × Str)
  | 0, _ => none
  | fuel + 1, cs0 =>
    let cs := skipWs cs0
    match cs with
    | [] => none
    | c :: _ =>
      if c = ']' then some (.jarr .nil, cs.drop 1)
      else
        match parseElems fuel cs with
        | some (es, rem) => some (.jarr es, rem)
        | none => none

/-- Parse a non-empty element list `value (, value)*` followed by `]`. -/
def parseElems : Nat → Str → Option (JVals × Str)
  | 0, _ => none
  | fuel + 1, cs =>
    match parseVal fuel cs with
    | some (v, rem) =>
      match skipWs rem with
      | ',' :: rem2 =>
        match parseElems fuel rem2 with
        | some (es, rem3) => some (.cons v es, rem3)
        | none => none
      | c :: rem2 => if c = ']' then some (.cons v .nil, rem2) else none
      | [] => none
    | none => none

end

/-- Model of `json.loads`: parse one value and require only whitespace afterwards. -/
def jsonLoads (cs : Str) : Option JVal :=
  match parseVal (4 * cs.length + 8) cs with
  | some (v, rest) => if (skipWs rest).isEmpty then some v else none
  | none => none

deriving instance DecidableEq for Except

/-! ## `parse_gemini_response` (`gemini_processor.py` lines 204-238) -/

/-- The span matched by `re.search(r'\x7b.*\x7d', text, re.DOTALL)`: from the
first left brace that is followed by a right brace, through the last right
brace of the text. -/
def geminiSpan (cs : Str) : Option Str :=
  let rest := cs.dropWhile (fun c => c != lbrace)
  let cut := (rest.reverse.dropWhile (fun c => c != rbrace)).reverse
  if cut.isEmpty then none else some cut

/-- Function `parse_gemini_response`: direct `json.loads` first, then the greedy
brace-to-brace span, else `GeminiProcessingError`. -/
def parseGeminiResponse (t : Str) : Except Str JVal :=
  match jsonLoads t with
  | some v => .ok v
  | none =>
    match geminiSpan t with
    | some span =>
      match jsonLoads span with
      | some v => .ok v
      | none => .error (str "Could not parse JSON from Gemini response")
    | none => .error (str "Could not parse JSON from Gemini response")

example : jsonLoads (str "123") = some (.jnum (str "123")) := by decide
example : jsonLoads (str " \x7b\x22a\x22: 1\x7d ") =
    some (.jobj (.cons (str "a") (.jnum (str "1")) .nil)) := by decide
example : jsonLoads (str "\x7b\x22a\x22: [true, null]\x7d") =
    some (.jobj (.cons (str "a") (.jarr (.cons .jtrue (.cons .jnull .nil))) .nil)) := by decide
example : jsonLoads (str "Sure: \x7b\x22a\x22: 1\x7d") = none := by decide
example : parseGeminiResponse (str "Sure: \x7b\x22a\x22: 1\x7d end") =
    .ok (.jobj (.cons (str "a") (.jnum (str "1")) .nil)) := by decide
example : parseGeminiResponse (str "\x7b\x22a\x22: 1\x7d \x7d") =
    .error (str "Could not parse JSON from Gemini response") := by decide

/-! ## The missing-attribute error pattern (`attio_client.py` line 145)

`re.search(r'Cannot find attribute with slug/ID ["\x27“]([^"\x27”]+)["\x27”]', msg)`:
scan for the first occurrence of the literal prefix after which an opening
quote, a non-empty run of non-closing characters and a closing quote follow. -/

/-- The literal part of the missing-attribute regex. -/
def attrLit : Str := str "Cannot find attribute with slug/ID "

/-- Characters accepted as the opening quote: `"`, `'`, and U+201C. -/
def slugOpenChars : List Char := ['"', Char.ofNat 39, lcurly]

/-- Characters accepted as the closing quote (and excluded from the slug):
`"`, `'`, and U+201D. -/
def slugCloseChars : List Char := ['"', Char.ofNat 39, rcurly]

/-- Match the quoted-slug tail of the regex at the current position. -/
def extractAfterQuote (cs : Str) : Option Str :=
  match cs with
  | [] => none
  | c :: rest =>
    if slugOpenChars.contains c then
      let content := rest.takeWhile (fun x => !(slugCloseChars.contains x))
      if content.isEmpty then none
      else
        match rest.drop content.length with
        | d :: _ => if slugCloseChars.contains d then some content else none
        | [] => none
    else none

/-- Scan for the leftmost full match of the missing-attribute regex and
return its capture group. -/
def extractSlugGo : Str → Option Str
  | [] => none
  | c :: rest =>
    if attrLit.isPrefixOf (c :: rest) then
      match extractAfterQuote ((c :: rest).drop attrLit.length) with
      | some s => some s
      | none => extractSlugGo rest
    else extractSlugGo rest

/-- The slug captured from a missing-attribute error message, if the message
matches the pattern. -/
def extractSlug (msg : Str) : Option Str := extractSlugGo msg

example : extractSlug (str "Cannot find attribute with slug/ID \x22job_title\x22.") =
    some (str "job_title") := by decide
example :
    extractSlug (String.data ("Cannot find attribute with slug/ID " ++
      (Char.ofNat 8220).toString ++ "foo" ++ (Char.ofNat 8221).toString ++ ".")) =
    some (str "foo") := by decide
example : extractSlug (str "Cannot find attribute with slug/ID job_title.") = none := by decide

/-! ## `LeadData` and its validation (`gemini_processor.py` lines 99-111) -/

/-- A finite Python float, modelled as the exact decimal
`mant / 10 ^ scale` (every numeric value appearing in the pipeline is a
parsed decimal literal, which this represents exactly). -/
structure PyFloat where
  mant : Int
  scale : Nat
deriving DecidableEq, Repr

/-- An integer-valued `PyFloat`. -/
def PyFloat.ofInt (n : Int) : PyFloat := ⟨n, 0⟩

/-- Python `int(x)` on a float: truncation toward zero (Lean's `Int.div`
also truncates toward zero). -/
def PyFloat.toInt (x : PyFloat) : Int := x.mant / (10 : Int) ^ x.scale

/-- Python truthiness of a float: `0.0` is falsy. -/
def PyFloat.truthy (x : PyFloat) : Bool := x.mant != 0

/-- The validated extraction output (`LeadData(BaseModel)`).  `object_type` and
`name` are required strings, everything else optional; the class declares NO
constraint restricting `object_type` to the four object kinds. -/
structure LeadData where
  object_type : Str
  name : Str
  email : Option Str
  phone : Option Str
  company : Option Str
  job_title : Option Str
  location : Option Str
  linkedin_url : Option Str
  deal_value : Option PyFloat
  deal_stage : Option Str
  notes : Option Str
deriving DecidableEq, Repr

/-- Look a key up in parsed JSON object members; a duplicate key keeps its
last value, as in a Python dict built by `json.loads`. -/
def jmLookup (k : Str) : JMembers → Option JVal
  | .nil => none
  | .cons k2 v rest =>
    match jmLookup k rest with
    | some v2 => some v2
    | none => if k2 = k then some v else none

/-- Digits to a natural number. -/
def digitsToNat (ds : Str) : Nat := ds.foldl (fun acc c => acc * 10 + (c.toNat - 48)) 0

/-- The exact decimal value of a finite JSON number literal (the `float` or
`int` produced by `json.loads`; NaN and the infinities have no such value). -/
def litToFloat (lit : Str) : Option PyFloat :=
  if lit = str "NaN" ∨ lit = str "Infinity" ∨ lit = str "-Infinity" then none
  else
    let signRest : Bool × Str :=
      match lit with
      | c :: r => if c = '-' then (true, r) else (false, lit)
      | [] => (false, lit)
    let intPart := signRest.2.takeWhile Char.isDigit
    let rest2 := signRest.2.drop intPart.length
    let fracRest : Str × Str :=
      match rest2 with
      | '.' :: fr => (fr.takeWhile Char.isDigit, fr.dropWhile Char.isDigit)
      | _ => ([], rest2)
    let expVal : Int :=
      match fracRest.2 with
      | _ :: er =>
        match er with
        | '+' :: ds => (digitsToNat ds : Int)
        | '-' :: ds => -(digitsToNat ds : Int)
        | ds => (digitsToNat ds : Int)
      | [] => 0
    let mantNat : Nat := digitsToNat (intPart ++ fracRest.1)
    let mant : Int := if signRest.1 then -(mantNat : Int) else (mantNat : Int)
    let e10 : Int := expVal - (fracRest.1.length : Int)
    if e10 ≥ 0 then some ⟨mant * (10 : Int) ^ e10.toNat, 0⟩
    else some ⟨mant, (-e10).toNat⟩

/-- Pydantic validation of an `Optional[str]` field. -/
def getOptStr (fields : JMembers) (k : Str) : Except Str (Option Str) :=
  match jmLookup k fields with
  | none => .ok none
  | some .jnull => .ok none
  | some (.jstr s) => .ok (some s)
  | some _ => .error (str "Input should be a valid string")

/-- Pydantic validation of the `Optional[float]` field `deal_value`. -/
def getOptNum (fields : JMembers) (k : Str) : Except Str (Option PyFloat) :=
  match jmLookup k fields with
  | none => .ok none
  | some .jnull => .ok none
  | some (.jnum lit) =>
    match litToFloat lit with
    | some q => .ok (some q)
    | none => .error (str "Input should be a finite number")
  | some _ => .error (str "Input should be a valid number")

/-- Model of `LeadData(**data)`: pydantic validation of the parsed response dict.
Required string fields must be present as strings; optional fields default to
`None`; extra keys are ignored; and — the point of claim C4 — `object_type`
is accepted verbatim, with no membership check against the four kinds. -/
def validateLeadData (fields : JMembers) : Except Str LeadData :=
  match jmLookup (str "object_type") fields with
  | some (.jstr ot) =>
    match jmLookup (str "name") fields with
    | some (.jstr nm) =>
      match getOptStr fields (str "email"), getOptStr fields (str "phone"),
            getOptStr fields (str "company"), getOptStr fields (str "job_title"),
            getOptStr fields (str "location"), getOptStr fields (str "linkedin_url"),
            getOptNum fields (str "deal_value"), getOptStr fields (str "deal_stage"),
            getOptStr fields (str "notes") with
      | .ok email, .ok phone, .ok company, .ok jt, .ok loc, .ok li, .ok dv, .ok ds, .ok nts =>
        .ok ⟨ot, nm, email, phone, company, jt, loc, li, dv, ds, nts⟩
      | _, _, _, _, _, _, _, _, _ => .error (str "Invalid lead data format")
    | _ => .error (str "Invalid lead data format")
  | _ => .error (str "Invalid lead data format")

example :
    validateLeadData
      (.cons (str "object_type") (.jstr (str "person"))
        (.cons (str "name") (.jstr (str "Sarah Chen"))
          (.cons (str "company") (.jstr (str "Stripe")) .nil))) =
    .ok ⟨str "person", str "Sarah Chen", none, none, some (str "Stripe"),
         none, none, none, none, none, none⟩ := by decide

example :
    validateLeadData
      (.cons (str "object_type") (.jstr (str "deal"))
        (.cons (str "name") (.jstr (str "D"))
          (.cons (str "deal_value") (.jnum (str "50000")) .nil))) =
    .ok ⟨str "deal", str "D", none, none, none, none, none, none,
         some (PyFloat.ofInt 50000), none, none⟩ := by decide

/-! ## Attio payload values (`AttioClient._build_*_payload`) -/

mutual

/-- A JSON value sent to the CRM API. -/
inductive AVal where
  | s (v : Str) : AVal
  | n (v : Int) : AVal
  | arr (elems : AVals) : AVal
  | obj (fields : AFields) : AVal
deriving DecidableEq, Repr

/-- Array elements of an `AVal`. -/
inductive AVals where
  | nil : AVals
  | cons (v : AVal) (rest : AVals) : AVals
deriving DecidableEq, Repr

/-- Object fields of an `AVal`, in insertion order. -/
inductive AFields where
  | nil : AFields
  | cons (key : Str) (v : AVal) (rest : AFields) : AFields
deriving DecidableEq, Repr

end

/-- Build `AFields` from a list of pairs. -/
def af (ps : List (Str × AVal)) : AFields :=
  ps.foldr (fun p acc => .cons p.1 p.2 acc) .nil

/-- Build `AVals` from a list. -/
def avs (vs : List AVal) : AVals := vs.foldr .cons .nil

/-- Look a key up in an association list of payload attributes. -/
def assocFind (key : Str) : List (Str × AVal) → Option AVal
  | [] => none
  | (k, v) :: rest => if k = key then some v else assocFind key rest

/-- The `{'data': {'values': attributes}}` envelope common to all payloads. -/
def wrapPayload (vals : List (Str × AVal)) : AVal :=
  .obj (af [(str "data", .obj (af [(str "values", .obj (af vals))]))])

/-- The dictionary produced by `_lead_data_to_dict` (`attio_client.py` lines
508-530) and later mutated by `create_record`.  The source dict carries only
the eight listed keys; `company_record_id` / `company_domain` are added by
`create_record`, and `deal_value` / `deal_stage` are NEVER inserted — the
source's dict simply lacks those keys, so `data.get(…)` yields `None`
(claim C8). -/
structure DataDict where
  name : Str
  email : Option Str
  phone : Option Str
  company : Option Str
  job_title : Option Str
  location : Option Str
  linkedin_url : Option Str
  notes : Option Str
  company_record_id : Option Str
  company_domain : Option Str
  deal_value : Option PyFloat
  deal_stage : Option Str
deriving DecidableEq, Repr

/-- Function `_lead_data_to_dict`: the eight copied keys; everything else absent. -/
def leadDataToDict (l : LeadData) : DataDict :=
  { name := l.name, email := l.email, phone := l.phone, company := l.company,
    job_title := l.job_title, location := l.location,
    linkedin_url := l.linkedin_url, notes := l.notes,
    company_record_id := none, company_domain := none,
    deal_value := none, deal_stage := none }

/-- Person payload: `email_addresses` entry (line 560-561). -/
def emailSeg (d : DataDict) : List (Str × AVal) :=
  match optTruthy d.email with
  | some e => [(str "email_addresses", .arr (avs [.obj (af [(str "email_address", .s e)])]))]
  | none => []

/-- Person payload: `phone_numbers` entry (lines 563-567). -/
def phoneSeg (d : DataDict) : List (Str × AVal) :=
  match optTruthy d.phone with
  | some p => [(str "phone_numbers", .arr (avs [.obj (af [(str "original_phone_number", .s p)])]))]
  | none => []

/-- Person payload: `job_title` entry. -/
def jobSeg (d : DataDict) : List (Str × AVal) :=
  match optTruthy d.job_title with
  | some jt => [(str "job_title", .s jt)]
  | none => []

/-- Person payload: `location` entry. -/
def locSeg (d : DataDict) : List (Str × AVal) :=
  match optTruthy d.location with
  | some loc => [(str "location", .s loc)]
  | none => []

/-- Person payload: `linkedin_url` entry. -/
def linkedinSeg (d : DataDict) : List (Str × AVal) :=
  match optTruthy d.linkedin_url with
  | some li => [(str "linkedin_url", .s li)]
  | none => []

/-- Person payload company link (lines 578-588): a carried domain string is
preferred, else a structured reference to the captured record id. -/
def personCompanySeg (d : DataDict) : List (Str × AVal) :=
  match optTruthy d.company_domain with
  | some cd => [(str "company", .s cd)]
  | none =>
    match optTruthy d.company_record_id with
    | some rid =>
      [(str "company",
        .arr (avs [.obj (af [(str "target_object", .s (str "companies")),
                             (str "target_record_id", .s rid)])]))]
    | none => []

/-- Person payload description (lines 590-596): the single-element
`notes_parts` list joined with newlines is just the notes text. -/
def personDescSeg (d : DataDict) : List (Str × AVal) :=
  match optTruthy d.notes with
  | some nts => [(str "description", .s nts)]
  | none => []

/-- Function `_build_person_payload` attribute dict (lines 554-598). -/
def buildPersonValues (d : DataDict) : List (Str × AVal) :=
  [(str "name", .s d.name)] ++ emailSeg d ++ phoneSeg d ++ jobSeg d ++
    locSeg d ++ linkedinSeg d ++ personCompanySeg d ++ personDescSeg d

/-- Company payload name: `data.get('company') or data.get('name')`. -/
def companyNameVal (d : DataDict) : Str :=
  match optTruthy d.company with
  | some c => c
  | none => d.name

/-- Company payload `locations` entry (lines 606-607). -/
def companyLocSeg (d : DataDict) : List (Str × AVal) :=
  match optTruthy d.location with
  | some loc => [(str "locations", .arr (avs [.s loc]))]
  | none => []

/-- Line 610: `data['email'].split('@')[1] if '@' in data['email'] else
data['email']`. -/
def emailDomain (e : Str) : Str :=
  if e.contains '@' then (splitOnChar '@' e).getD 1 [] else e

/-- Company payload `domains` entry (lines 609-610). -/
def companyDomainsSeg (d : DataDict) : List (Str × AVal) :=
  match optTruthy d.email with
  | some e => [(str "domains", .arr (avs [.obj (af [(str "domain", .s (emailDomain e))])]))]
  | none => []

/-- Company payload description parts (lines 613-625). -/
def companyDescParts (d : DataDict) : List Str :=
  (if !d.name.isEmpty && truthy d.company then [str "Contact: " ++ d.name] else []) ++
  (match optTruthy d.job_title with
   | some jt => [str "Title: " ++ jt]
   | none => []) ++
  (match optTruthy d.email with
   | some e => [str "Email: " ++ e]
   | none => []) ++
  (match optTruthy d.phone with
   | some p => [str "Phone: " ++ p]
   | none => []) ++
  (match optTruthy d.linkedin_url with
   | some li => [str "LinkedIn: " ++ li]
   | none => []) ++
  (match optTruthy d.notes with
   | some nts => [['\n'] ++ nts]
   | none => [])

/-- Join description parts with newlines (`"\n".join(desc_parts)`). -/
def joinNL (ps : List Str) : Str := List.intercalate ['\n'] ps

/-- Company payload description entry (lines 627-628). -/
def companyDescSeg (d : DataDict) : List (Str × AVal) :=
  if (companyDescParts d).isEmpty then []
  else [(str "description", .s (joinNL (companyDescParts d)))]

/-- Function `_build_company_payload` attribute dict (lines 600-630). -/
def buildCompanyValues (d : DataDict) : List (Str × AVal) :=
  [(str "name", .s (companyNameVal d))] ++ companyLocSeg d ++
    companyDomainsSeg d ++ companyDescSeg d

/-- Deal payload `value` entry (lines 638-642): note the inner key is
`value` and the amount is `int(data['deal_value'])`. -/
def dealValueSeg (d : DataDict) : List (Str × AVal) :=
  match d.deal_value with
  | some v =>
    if v.truthy then
      [(str "value", .obj (af [(str "currency", .s (str "USD")),
                               (str "value", .n v.toInt)]))]
    else []
  | none => []

/-- Deal payload `stage` entry (lines 644-645). -/
def dealStageSeg (d : DataDict) : List (Str × AVal) :=
  match optTruthy d.deal_stage with
  | some ds => [(str "stage", .s ds)]
  | none => []

/-- Deal payload description parts (lines 648-654). -/
def dealDescParts (d : DataDict) : List Str :=
  (match optTruthy d.company with
   | some c => [str "Company: " ++ c]
   | none => []) ++
  (if !d.name.isEmpty && !truthy d.company then [str "Contact: " ++ d.name] else []) ++
  (match optTruthy d.notes with
   | some nts => [nts]
   | none => [])

/-- Deal payload description entry. -/
def dealDescSeg (d : DataDict) : List (Str × AVal) :=
  if (dealDescParts d).isEmpty then []
  else [(str "description", .s (joinNL (dealDescParts d)))]

/-- Function `_build_deal_payload` attribute dict (lines 632-659). -/
def buildDealValues (d : DataDict) : List (Str × AVal) :=
  [(str "name", .s d.name)] ++ dealValueSeg d ++ dealStageSeg d ++ dealDescSeg d

/-- Function `_build_user_payload` attribute dict (lines 661-676). -/
def buildUserValues (d : DataDict) : List (Str × AVal) :=
  [(str "name", .s d.name)] ++
  (match optTruthy d.email with
   | some e => [(str "email_address", .s e)]
   | none => []) ++
  (match optTruthy d.job_title with
   | some jt => [(str "job_title", .s jt)]
   | none => []) ++
  (match optTruthy d.notes with
   | some nts => [(str "description", .s nts)]
   | none => [])

/-- Function `_build_attio_payload` dispatch (lines 532-552); the final branch raises
and is unreachable because `create_record` validates the kind first. -/
def buildAttioValues (d : DataDict) (object_type : Str) : List (Str × AVal) :=
  if object_type = str "person" then buildPersonValues d
  else if object_type = str "company" then buildCompanyValues d
  else if object_type = str "deal" then buildDealValues d
  else if object_type = str "user" then buildUserValues d
  else []

/-! ## `_create_attribute` (`attio_client.py` lines 409-506) -/

/-- The attribute-definition payload POSTed to
`/objects/\x7bobject_slug\x7d/attributes`. -/
structure AttrData where
  title : Str
  api_slug : Str
  description : Str
  type : Str
  is_multiselect : Bool
  is_required : Bool
  is_unique : Bool
  config : AVal
deriving DecidableEq, Repr

/-- The slugs with an entry in the static `attribute_config` table. -/
def knownAttrSlugs : List Str :=
  [str "linkedin_url", str "job_title", str "location", str "description",
   str "companies"]

/-- Title/type/multi/reference-target of the static table entry or the
generic fallback (underscores to spaces, `str.title()`, text type). -/
def attrTableEntry (slug : Str) : Str × Str × Bool × Option Str :=
  if slug = str "linkedin_url" then (str "LinkedIn URL", str "text", false, none)
  else if slug = str "job_title" then (str "Job Title", str "text", false, none)
  else if slug = str "location" then (str "Location", str "text", false, none)
  else if slug = str "description" then (str "Description", str "text", false, none)
  else if slug = str "companies" then
    (str "Companies", str "reference", true, some (str "companies"))
  else
    (pyTitle (slug.map (fun c => if c = '_' then ' ' else c)), str "text", false, none)

/-- The attribute payload built by `_create_attribute` for a missing slug. -/
def attributeDataFor (slug : Str) : AttrData :=
  let entry := attrTableEntry slug
  { title := entry.1
    api_slug := slug
    description := str "Auto-created attribute for " ++ entry.1
    type := entry.2.1
    is_multiselect := entry.2.2.1
    is_required := false
    is_unique := false
    config :=
      if entry.2.1 = str "reference" then
        match entry.2.2.2 with
        | some tgt => .obj (af [(str "reference", .obj (af [(str "target_object", .s tgt)]))])
        | none => .obj (af [])
      else .obj (af []) }

example : (attributeDataFor (str "job_title")).title = str "Job Title" := by decide
example : (attributeDataFor (str "custom_field_2")).title = str "Custom Field 2" := by decide
example : (attributeDataFor (str "companies")).config =
    .obj (af [(str "reference", .obj (af [(str "target_object", .s (str "companies"))]))]) := by
  decide

/-! ## HTTP errors and the `create_record` flow
(`attio_client.py` lines 44-185, 250-312) -/

/-- A failed HTTP request (`requests.exceptions.RequestException`):
`response` is `None` for transport errors; `body` is `none` when
`e.response.json()` raises, and `some none` when the parsed body has no
`message` key; `text` is `str(e)`. -/
structure RespInfo where
  status : Nat
  body : Option (Option Str)
deriving DecidableEq, Repr

/-- A failed HTTP request. -/
structure HttpErr where
  response : Option RespInfo
  text : Str
deriving DecidableEq, Repr

/-- Lines 177-183: the detail used in the raised `AttioAPIError` — the parsed
body's `message` when available, else `str(e)`. -/
def errorDetail (e : HttpErr) : Str :=
  match e.response with
  | some r =>
    match r.body with
    | some (some m) => m
    | _ => e.text
  | none => e.text

/-- Lines 135-147: the auto-heal precondition — a 400 response whose parsed
body's message (`error_data.get('message', '')`) contains
`Cannot find attribute` and matches the slug-extraction pattern. -/
def healSlug (e : HttpErr) : Option Str :=
  match e.response with
  | some r =>
    if r.status = 400 then
      match r.body with
      | some mb =>
        let m := mb.getD []
        if containsSub (str "Cannot find attribute") m then extractSlug m else none
      | none => none
    else none
  | none => none

/-- The created-company record, reduced to the only field `create_record`
reads from it: `company_record.get('id', \x7b\x7d).get('record_id')`. -/
structure CompanyRec where
  record_id : Option Str
deriving DecidableEq, Repr

/-- The created-record response returned by `create_record`, reduced to the
record id used by the caller. -/
structure CreatedRec where
  record_id : Option Str
deriving DecidableEq, Repr

/-- Oracles for every outbound call made during one `create_record`
invocation: the website-search generation calls, the company-create POST,
the two possible record-create POSTs and the attribute-create POST. -/
structure CrmEnv where
  search : GenOracle
  companyCreate : Except HttpErr CompanyRec
  firstPost : Except HttpErr CreatedRec
  secondPost : Except HttpErr CreatedRec
  attrCreate : Except HttpErr Unit

/-- Function `_create_or_get_company` (lines 250-312): search for a domain, build the
company payload, POST it; on a request failure return `(None, None)`.
Also returns the payload POSTed to the companies endpoint. -/
def createOrGetCompany (env : CrmEnv) (company_name : Str) (company_notes : Str) :
    (Option CompanyRec × Option Str) × AVal :=
  let website_domain := (searchCompanyWebsite env.search false).1
  let vals :=
    [(str "name", AVal.s company_name)] ++
    (match website_domain with
     | some dm => [(str "domains", AVal.arr (avs [.obj (af [(str "domain", .s dm)])]))]
     | none => []) ++
    (if company_notes.isEmpty then [] else [(str "description", AVal.s company_notes)])
  let payload := wrapPayload vals
  match env.companyCreate with
  | .ok rec => ((some rec, website_domain), payload)
  | .error _ => ((none, none), payload)

/-- Lines 76-96 of `create_record`: for a person with a truthy company,
create the company first and record either its id or the resolved domain in
the data dict; also collect the company-create payload for the trace. -/
def companyStep (lead : LeadData) (env : CrmEnv) : DataDict × List AVal :=
  let d0 := leadDataToDict lead
  if lead.object_type = str "person" && truthy d0.company then
    let cg := createOrGetCompany env (d0.company.getD []) (d0.notes.getD [])
    let d1 :=
      match cg.1.1 with
      | some rec =>
        match optTruthy rec.record_id with
        | some rid => { d0 with company_record_id := some rid }
        | none =>
          match optTruthy cg.1.2 with
          | some dm => { d0 with company_domain := some dm }
          | none => d0
      | none => d0
    (d1, [cg.2])
  else (d0, [])

/-- The payload `create_record` POSTs (and, after auto-heal, re-POSTs). -/
def payloadFor (lead : LeadData) (env : CrmEnv) : AVal :=
  wrapPayload (buildAttioValues (companyStep lead env).1 lead.object_type)

/-- The `object_plural` mapping (lines 101-106), total on validated kinds. -/
def objectPlural (object_type : Str) : Str :=
  if object_type = str "person" then str "people"
  else if object_type = str "company" then str "companies"
  else if object_type = str "deal" then str "deals"
  else if object_type = str "user" then str "users"
  else []

/-- The four accepted object kinds (line 69). -/
def validTypes : List Str := [str "person", str "company", str "deal", str "user"]

/-- The `AttioAPIError` message for an invalid kind (line 71). -/
def invalidTypeMsg (object_type : Str) : Str :=
  str "Invalid object_type: " ++ object_type ++
    str ". Must be one of [\x27person\x27, \x27company\x27, \x27deal\x27, \x27user\x27]"

/-- The `AttioAPIError` message raised after a failed create (line 185). -/
def crmFailMsg (object_type : Str) (e : HttpErr) : Str :=
  pyCapitalize object_type ++ str " creation failed: " ++ errorDetail e

/-- Result and observable calls of the POST-and-auto-heal part of
`create_record` (lines 110-185). -/
structure PostOut where
  result : Except Str CreatedRec
  recordPosts : List AVal
  attrPosts : List (Str × AttrData)
deriving DecidableEq, Repr

/-- Lines 110-185: POST the payload; on a 400 missing-attribute error create
the attribute and re-POST the identical payload once; on any other failure,
or when the attribute create or the replay fails, raise `AttioAPIError`
carrying the original error's detail. -/
def postAndHeal (object_type : Str) (payload : AVal) (env : CrmEnv) : PostOut :=
  match env.firstPost with
  | .ok rec => ⟨.ok rec, [payload], []⟩
  | .error e =>
    let failMsg := crmFailMsg object_type e
    match healSlug e with
    | some slug =>
      let ad := attributeDataFor slug
      match env.attrCreate with
      | .ok _ =>
        match env.secondPost with
        | .ok rec => ⟨.ok rec, [payload, payload], [(objectPlural object_type, ad)]⟩
        | .error _ => ⟨.error failMsg, [payload, payload], [(objectPlural object_type, ad)]⟩
      | .error _ => ⟨.error failMsg, [payload], [(objectPlural object_type, ad)]⟩
    | none => ⟨.error failMsg, [payload], []⟩

/-- Full observable trace of one `create_record` call. -/
structure CrmTrace where
  result : Except Str CreatedRec
  recordPosts : List AVal
  attrPosts : List (Str × AttrData)
  companyPosts : List AVal
deriving DecidableEq, Repr

/-- Method `AttioClient.create_record` (lines 44-185): validate the kind, run the
company sub-step for persons, build the payload, POST with one-shot
auto-heal. -/
def createRecordFlow (lead : LeadData) (env : CrmEnv) : CrmTrace :=
  if lead.object_type ∈ validTypes then
    let po := postAndHeal lead.object_type (payloadFor lead env) env
    { result := po.result, recordPosts := po.recordPosts,
      attrPosts := po.attrPosts, companyPosts := (companyStep lead env).2 }
  else
    { result := .error (invalidTypeMsg lead.object_type), recordPosts := [],
      attrPosts := [], companyPosts := [] }

/-! ## Helper lemmas -/

/-- The fallback tier makes exactly one generation attempt. -/
lemma fallbackTier_snd (gen : GenOracle) : (callGeminiFallbackTier gen).2 = 1 := by
  unfold callGeminiFallbackTier
  cases geminiAttempt gen true <;> rfl

/-- Function `callGeminiApi` at the fallback tier is the unrolled base case. -/
lemma callGeminiApi_true (gen : GenOracle) :
    callGeminiApi gen true = callGeminiFallbackTier gen := rfl

/-- A non-empty list is not `isEmpty`. -/
lemma isEmpty_false_of_ne_nil {α : Type} {l : List α} (h : l ≠ []) :
    l.isEmpty = false := by
  cases l with
  | nil => exact absurd rfl h
  | cons a t => rfl

/-! ## Claim C2 -/

/-- Claim C2: a primary-tier failure whose error text contains a quota
signature (case-insensitively, from the fixed six-entry list modelled by
`isQuotaError`) is retried exactly once on the fallback model; if the retry
also fails the raised error combines both messages; an error without a
signature, or any error at the fallback tier, propagates immediately as a
single `GeminiProcessingError` with no retry. -/
theorem claim_C2_quota_fallback :
    (∀ gen m, geminiAttempt gen false = .error m → isQuotaError m = true →
      (callGeminiApi gen false).2 = 2 ∧
      (∀ m2, geminiAttempt gen true = .error m2 →
        callGeminiApi gen false = (.error (bothFailMsg m (apiFailMsg m2)), 2)) ∧
      (∀ t, geminiAttempt gen true = .ok t →
        callGeminiApi gen false = (.ok t, 2))) ∧
    (∀ gen m, geminiAttempt gen false = .error m → isQuotaError m = false →
      callGeminiApi gen false = (.error (apiFailMsg m), 1)) ∧
    (∀ gen m, geminiAttempt gen true = .error m →
      callGeminiApi gen true = (.error (apiFailMsg m), 1)) := by
  refine ⟨?_, ?_, ?_⟩
  · intro gen m h hq
    refine ⟨?_, ?_, ?_⟩
    · simp only [callGeminiApi, Bool.false_eq_true, if_false, h, hq, if_true]
      cases h2 : geminiAttempt gen true <;>
        simp only [callGeminiFallbackTier, h2]
    · intro m2 h2
      simp only [callGeminiApi, Bool.false_eq_true, if_false, h, hq, if_true,
        callGeminiFallbackTier, h2]
    · intro t h2
      simp only [callGeminiApi, Bool.false_eq_true, if_false, h, hq, if_true,
        callGeminiFallbackTier, h2]
  · intro gen m h hq
    simp only [callGeminiApi, Bool.false_eq_true, if_false, h, hq]
  · intro gen m h
    simp only [callGeminiApi, if_true, callGeminiFallbackTier, h]

/-- Witness for C2 at a concrete oracle: primary fails with `429`, fallback
fails with another message; the call makes two attempts and raises the
combined failure. -/
theorem claim_C2_quota_fallback_witness :
    (callGeminiApi (fun b => if b then .error (str "fb boom") else .error (str "429")) false).2
        = 2 ∧
    callGeminiApi (fun b => if b then .error (str "fb boom") else .error (str "429")) false
      = (.error (bothFailMsg (str "429") (apiFailMsg (str "fb boom"))), 2) :=
  ⟨(claim_C2_quota_fallback.1
      (fun b => if b then .error (str "fb boom") else .error (str "429"))
      (str "429") (by decide) (by decide)).1,
   (claim_C2_quota_fallback.1
      (fun b => if b then .error (str "fb boom") else .error (str "429"))
      (str "429") (by decide) (by decide)).2.1 (str "fb boom") (by decide)⟩

/-! ## Claim C3 -/

/-- Claim C3: every `generate` call makes at most two generation attempts,
and a fallback-tier call never retries — for the extraction gateway
(`call_gemini_api`) and for the enrichment lookup
(`_search_company_website`) alike. -/
theorem claim_C3_two_attempts :
    (∀ gen useFallback, (callGeminiApi gen useFallback).2 ≤ 2) ∧
    (∀ gen, (callGeminiApi gen true).2 = 1) ∧
    (∀ gen useFallback, (searchCompanyWebsite gen useFallback).2 ≤ 2) ∧
    (∀ gen, (searchCompanyWebsite gen true).2 = 1) := by
  refine ⟨?_, ?_, ?_, ?_⟩
  · intro gen fb
    cases fb
    · rcases h : geminiAttempt gen false with m | t
      · by_cases hq : isQuotaError m = true
        · have h2 := fallbackTier_snd gen
          rcases h3 : callGeminiFallbackTier gen with ⟨r, n⟩
          rw [h3] at h2
          simp only at h2
          rcases r with fbMsg | t <;>
            simp [callGeminiApi, h, hq, h3, h2]
        · simp only [Bool.not_eq_true] at hq
          simp [callGeminiApi, h, hq]
      · simp [callGeminiApi, h]
    · rw [callGeminiApi_true, fallbackTier_snd]
      decide
  · intro gen
    rw [callGeminiApi_true, fallbackTier_snd]
  · intro gen fb
    cases fb
    · rcases h : searchStep (gen false) with m | r
      · by_cases hq : isQuotaError m = true
        · rcases h2 : searchStep (gen true) with m2 | r2 <;>
            simp [searchCompanyWebsite, h, hq, h2]
        · simp only [Bool.not_eq_true] at hq
          simp [searchCompanyWebsite, h, hq]
      · simp [searchCompanyWebsite, h]
    · rcases h : searchStep (gen true) with m | r <;>
        simp [searchCompanyWebsite, h]
  · intro gen
    rcases h : searchStep (gen true) with m | r <;>
      simp [searchCompanyWebsite, h]

/-! ## Claim C6 -/

/-- Formalisation of claim C6's own cleaning words, used only to exhibit the
counterexample: trim and lowercase, then strip `https://`, `http://`, `www.`
as PREFIXES and strip trailing slashes. -/
def claimClean (t : Str) : Str :=
  let w0 := toLowerStr (pyStrip t)
  let w1 := if (str "https://").isPrefixOf w0 then w0.drop (str "https://").length else w0
  let w2 := if (str "http://").isPrefixOf w1 then w1.drop (str "http://").length else w1
  let w3 := if (str "www.").isPrefixOf w2 then w2.drop (str "www.").length else w2
  (w3.reverse.dropWhile (fun c => c == '/')).reverse

/-- Counterexample to claim C6 as stated: for the model reply `x.www.y` the
claim's cleaning (prefix stripping) keeps the text unchanged and all three
return conditions hold, so the claim predicts `some "x.www.y"`; the code's
`str.replace` removes the INNER `www.` and returns `some "x.y"` instead. -/
theorem claim_C6_counterexample :
    (searchCompanyWebsite (fun _ => .ok (str "x.www.y")) false).1 = some (str "x.y") ∧
    claimClean (str "x.www.y") = str "x.www.y" ∧
    (claimClean (str "x.www.y") ≠ str "none" ∧
      (claimClean (str "x.www.y")).contains '.' = true ∧
      (claimClean (str "x.www.y")).contains ' ' = false) ∧
    some (claimClean (str "x.www.y")) ≠ some (str "x.y") := by
  refine ⟨by decide, by decide, ⟨by decide, by decide, by decide⟩, by decide⟩

/-- Claim C6 amended: `resolveDomain` returns the reply trimmed, lowercased,
with EVERY occurrence of `https://`, `http://`, `www.` removed and
leading/trailing slashes stripped (`cleanWebsite`), if and only if that
cleaned string is not `none`, contains a dot and contains no space
character; otherwise, and on every gateway failure (with at most one quota
fallback retry), it returns nothing rather than propagating. -/
theorem claim_C6_amended_resolve_domain :
    (∀ gen t, gen false = .ok t → t ≠ [] →
      searchCompanyWebsite gen false =
        (if cleanWebsite t ≠ str "none" ∧ (cleanWebsite t).contains '.' = true ∧
            (cleanWebsite t).contains ' ' = false
         then some (cleanWebsite t) else none, 1)) ∧
    (∀ gen m, gen false = .error m → isQuotaError m = false →
      searchCompanyWebsite gen false = (none, 1)) ∧
    (∀ gen m m2, gen false = .error m → isQuotaError m = true → gen true = .error m2 →
      searchCompanyWebsite gen false = (none, 2)) ∧
    (∀ gen m t, gen false = .error m → isQuotaError m = true → gen true = .ok t →
      searchCompanyWebsite gen false = (searchStep (.ok t) |>.toOption.join, 2)) := by
  refine ⟨?_, ?_, ?_, ?_⟩
  · intro gen t h hne
    simp only [searchCompanyWebsite, Bool.false_eq_true, if_false, searchStep, h,
      isEmpty_false_of_ne_nil hne, if_false, websiteOf]
  · intro gen m h hq
    simp only [searchCompanyWebsite, Bool.false_eq_true, if_false, searchStep, h, hq, if_false]
  · intro gen m m2 h hq h2
    simp only [searchCompanyWebsite, Bool.false_eq_true, if_false, searchStep, h, hq, if_true, h2]
  · intro gen m t h hq h2
    simp only [searchCompanyWebsite, Bool.false_eq_true, if_false, searchStep, h, hq, if_true, h2]
    cases ht : t.isEmpty <;> simp [ht, Except.toOption]

/-- Witness for C6 at the claim's own example: the reply
`https://www.Example.com/` resolves to `example.com`. -/
theorem claim_C6_amended_resolve_domain_witness :
    searchCompanyWebsite (fun _ => .ok (str "https://www.Example.com/")) false =
      (some (str "example.com"), 1) := by
  have h := claim_C6_amended_resolve_domain.1
    (fun _ => .ok (str "https://www.Example.com/"))
    (str "https://www.Example.com/") (by decide) (by decide)
  rw [h]
  decide

/-! ## Claim C5 -/

/-- Lemma: `dropWhile` skips a leading block on which the predicate holds. -/
lemma dropWhile_append_of_all {p : Char → Bool} {pre xs : Str}
    (h : ∀ c ∈ pre, p c = true) :
    List.dropWhile p (pre ++ xs) = List.dropWhile p xs := by
  induction pre with
  | nil => rfl
  | cons a t ih =>
    simp only [List.cons_append, List.dropWhile_cons, h a (List.mem_cons_self a t), if_true]
    exact ih (fun c hc => h c (List.mem_cons_of_mem a hc))

/-- Lemma: `dropWhile` empties a list on which the predicate holds everywhere. -/
lemma dropWhile_eq_nil_of_all {p : Char → Bool} {xs : Str}
    (h : ∀ c ∈ xs, p c = true) : List.dropWhile p xs = [] := by
  induction xs with
  | nil => rfl
  | cons a t ih =>
    simp only [List.dropWhile_cons, h a (List.mem_cons_self a t), if_true]
    exact ih (fun c hc => h c (List.mem_cons_of_mem a hc))

/-- The greedy `\x7b.*\x7d` span of a text made of one brace-delimited block
surrounded by a `\x7b`-free prefix and a `\x7d`-free suffix is exactly that
block. -/
lemma geminiSpan_extract {pre mid post : Str}
    (hpre : ∀ c ∈ pre, c ≠ lbrace) (hpost : ∀ c ∈ post, c ≠ rbrace) :
    geminiSpan (pre ++ (lbrace :: mid ++ [rbrace]) ++ post) =
      some (lbrace :: mid ++ [rbrace]) := by
  have h1 : List.dropWhile (fun c => c != lbrace)
      (pre ++ (lbrace :: mid ++ [rbrace]) ++ post) =
      lbrace :: mid ++ [rbrace] ++ post := by
    rw [List.append_assoc]
    rw [dropWhile_append_of_all (fun c hc => by simp [bne_iff_ne, hpre c hc])]
    simp [List.dropWhile_cons]
  have h3 : List.dropWhile (fun c => c != rbrace)
      ((lbrace :: mid ++ [rbrace] ++ post).reverse) =
      rbrace :: (mid.reverse ++ [lbrace]) := by
    have h2 : (lbrace :: mid ++ [rbrace] ++ post).reverse =
        post.reverse ++ (rbrace :: (mid.reverse ++ [lbrace])) := by
      simp
    rw [h2]
    rw [dropWhile_append_of_all (fun c hc => by
      simp only [List.mem_reverse] at hc
      simp [bne_iff_ne, hpost c hc])]
    simp [List.dropWhile_cons]
  simp only [geminiSpan, h1, h3]
  simp

/-- Counterexample to claim C5 as stated.  First, the bare scalar `123`
contains no JSON object at all, yet the parser succeeds via the direct
`json.loads` stage instead of failing with `ExtractionFailed`.  Second, the
text `\x7b"a": 1\x7d \x7d` contains exactly one balanced JSON object
embedded in a larger string, yet both stages fail, because the greedy span
runs to the stray final brace. -/
theorem claim_C5_counterexample :
    (∀ c ∈ str "123", c ≠ lbrace) ∧
    parseGeminiResponse (str "123") = .ok (.jnum (str "123")) ∧
    parseGeminiResponse (str "\x7b\x22a\x22: 1\x7d \x7d") =
      .error (str "Could not parse JSON from Gemini response") := by
  refine ⟨by decide, by decide, by decide⟩

/-- Claim C5 amended: the parser tries a direct `json.loads` first — so any
text that is valid JSON (an object or not) succeeds; on failure it parses
the greedy span from the first `\x7b` to the last `\x7d`.  A text made of
one JSON object surrounded by a `\x7b`-free prefix and a `\x7d`-free suffix
(and not itself valid JSON) parses to that object's value; a text with no
`\x7b` that is not valid JSON fails with the `GeminiProcessingError`. -/
theorem claim_C5_amended_parsing :
    (∀ t v, jsonLoads t = some v → parseGeminiResponse t = .ok v) ∧
    (∀ pre mid post v,
      (∀ c ∈ pre, c ≠ lbrace) → (∀ c ∈ post, c ≠ rbrace) →
      jsonLoads (pre ++ (lbrace :: mid ++ [rbrace]) ++ post) = none →
      jsonLoads (lbrace :: mid ++ [rbrace]) = some v →
      parseGeminiResponse (pre ++ (lbrace :: mid ++ [rbrace]) ++ post) = .ok v) ∧
    (∀ t, (∀ c ∈ t, c ≠ lbrace) → jsonLoads t = none →
      parseGeminiResponse t = .error (str "Could not parse JSON from Gemini response")) := by
  refine ⟨?_, ?_, ?_⟩
  · intro t v h
    simp only [parseGeminiResponse, h]
  · intro pre mid post v hpre hpost hdirect hspan
    simp only [parseGeminiResponse, hdirect, geminiSpan_extract hpre hpost, hspan]
  · intro t ht hdirect
    have hspan : geminiSpan t = none := by
      have hin : List.dropWhile (fun c => c != lbrace) t = [] :=
        dropWhile_eq_nil_of_all (fun c hc => by simp [bne_iff_ne, ht c hc])
      simp only [geminiSpan, hin]
      rfl
    simp only [parseGeminiResponse, hdirect, hspan]

/-- Witness for C5 amended at a concrete response: prose around one JSON
object parses to that object. -/
theorem claim_C5_amended_parsing_witness :
    parseGeminiResponse (str "Note: " ++ (lbrace :: str "\x22a\x22: 1" ++ [rbrace]) ++ str " ok")
      = .ok (.jobj (.cons (str "a") (.jnum (str "1")) .nil)) :=
  claim_C5_amended_parsing.2.1 (str "Note: ") (str "\x22a\x22: 1") (str " ok")
    (.jobj (.cons (str "a") (.jnum (str "1")) .nil))
    (by decide) (by decide) (by decide) (by decide)

/-! ## Claim C4 -/

/-- Counterexample to claim C4 as stated: a parsed result whose
`object_type` is `alien` — far outside the four-kind enum — passes
`LeadData` validation, because the pydantic model constrains the field only
to be a string. -/
theorem claim_C4_counterexample :
    validateLeadData
      (.cons (str "object_type") (.jstr (str "alien"))
        (.cons (str "name") (.jstr (str "X")) .nil)) =
      .ok ⟨str "alien", str "X", none, none, none, none, none, none, none, none, none⟩ ∧
    ¬ str "alien" ∈ validTypes := by
  refine ⟨by decide, by decide⟩

/-- Claim C4 amended: validation fails when `name` (or `object_type`) is
missing, but it imposes no enum constraint — any `object_type` string
validates verbatim; the four-kind check happens later in the CRM Write
Engine, whose `create_record` rejects an invalid kind before any call. -/
theorem claim_C4_amended_validation :
    (∀ fields, jmLookup (str "name") fields = none →
      (validateLeadData fields).isOk = false) ∧
    (∀ fields, jmLookup (str "object_type") fields = none →
      (validateLeadData fields).isOk = false) ∧
    (∀ ot, validateLeadData
        (.cons (str "object_type") (.jstr ot)
          (.cons (str "name") (.jstr (str "Ada")) .nil)) =
      .ok ⟨ot, str "Ada", none, none, none, none, none, none, none, none, none⟩) ∧
    (∀ lead env, ¬ lead.object_type ∈ validTypes →
      createRecordFlow lead env =
        ⟨.error (invalidTypeMsg lead.object_type), [], [], []⟩) := by
  refine ⟨?_, ?_, ?_, ?_⟩
  · intro fields h
    unfold validateLeadData
    cases h1 : jmLookup (str "object_type") fields with
    | none => rfl
    | some v => cases v <;> simp [h, Except.isOk, Except.toBool]
  · intro fields h
    unfold validateLeadData
    simp [h, Except.isOk, Except.toBool]
  · intro ot
    rfl
  · intro lead env h
    unfold createRecordFlow
    rw [if_neg h]

/-- Witness for C4 amended: a dict without `name` fails validation, and a
lead of kind `alien` is rejected by the write engine with no calls made. -/
theorem claim_C4_amended_validation_witness :
    (validateLeadData (.cons (str "object_type") (.jstr (str "person")) .nil)).isOk
        = false ∧
    createRecordFlow
        ⟨str "alien", str "X", none, none, none, none, none, none, none, none, none⟩
        ⟨fun _ => .error (str "e"), .error ⟨none, str "e"⟩, .error ⟨none, str "e"⟩,
         .error ⟨none, str "e"⟩, .ok ()⟩ =
      ⟨.error (invalidTypeMsg (str "alien")), [], [], []⟩ :=
  ⟨claim_C4_amended_validation.1 _ (by decide),
   claim_C4_amended_validation.2.2.2 _ _ (by decide)⟩

/-! ## Helper lemmas for the CRM Write Engine claims -/

/-- Lemma: `assocFind` over a concatenation. -/
lemma assocFind_append (key : Str) (xs ys : List (Str × AVal)) :
    assocFind key (xs ++ ys) =
      (match assocFind key xs with
       | some v => some v
       | none => assocFind key ys) := by
  induction xs with
  | nil => rfl
  | cons p t ih =>
    rcases p with ⟨k, v⟩
    by_cases hk : k = key
    · simp [assocFind, hk]
    · simp [assocFind, hk, ih]

/-- The `company` key does not occur in the name entry. -/
lemma company_notin_name (d : DataDict) :
    assocFind (str "company") [(str "name", AVal.s d.name)] = none := by
  simp only [assocFind]
  rw [if_neg (by decide)]

/-- The `company` key does not occur in the email segment. -/
lemma company_notin_emailSeg (d : DataDict) :
    assocFind (str "company") (emailSeg d) = none := by
  unfold emailSeg
  cases optTruthy d.email
  · rfl
  · simp only [assocFind]
    rw [if_neg (by decide)]

/-- The `company` key does not occur in the phone segment. -/
lemma company_notin_phoneSeg (d : DataDict) :
    assocFind (str "company") (phoneSeg d) = none := by
  unfold phoneSeg
  cases optTruthy d.phone
  · rfl
  · simp only [assocFind]
    rw [if_neg (by decide)]

/-- The `company` key does not occur in the job-title segment. -/
lemma company_notin_jobSeg (d : DataDict) :
    assocFind (str "company") (jobSeg d) = none := by
  unfold jobSeg
  cases optTruthy d.job_title
  · rfl
  · simp only [assocFind]
    rw [if_neg (by decide)]

/-- The `company` key does not occur in the location segment. -/
lemma company_notin_locSeg (d : DataDict) :
    assocFind (str "company") (locSeg d) = none := by
  unfold locSeg
  cases optTruthy d.location
  · rfl
  · simp only [assocFind]
    rw [if_neg (by decide)]

/-- The `company` key does not occur in the linkedin segment. -/
lemma company_notin_linkedinSeg (d : DataDict) :
    assocFind (str "company") (linkedinSeg d) = none := by
  unfold linkedinSeg
  cases optTruthy d.linkedin_url
  · rfl
  · simp only [assocFind]
    rw [if_neg (by decide)]

/-- The `company` key does not occur in the description segment. -/
lemma company_notin_personDescSeg (d : DataDict) :
    assocFind (str "company") (personDescSeg d) = none := by
  unfold personDescSeg
  cases optTruthy d.notes
  · rfl
  · simp only [assocFind]
    rw [if_neg (by decide)]

/-- The person payload's `company` entry is exactly the link chosen by
lines 578-588: the carried domain, else the reference to the captured id,
else nothing. -/
lemma assocFind_company_personValues (d : DataDict) :
    assocFind (str "company") (buildPersonValues d) =
      (match optTruthy d.company_domain with
       | some cd => some (.s cd)
       | none =>
         match optTruthy d.company_record_id with
         | some rid =>
           some (.arr (avs [.obj (af [(str "target_object", .s (str "companies")),
                                      (str "target_record_id", .s rid)])]))
         | none => none) := by
  unfold buildPersonValues
  simp only [assocFind_append, company_notin_name, company_notin_emailSeg,
    company_notin_phoneSeg, company_notin_jobSeg, company_notin_locSeg,
    company_notin_linkedinSeg, company_notin_personDescSeg]
  unfold personCompanySeg
  cases optTruthy d.company_domain
  · cases optTruthy d.company_record_id
    · simp [assocFind]
    · simp [assocFind]
  · simp [assocFind]

/-- When the lead is not a person (or has no truthy company), the company
sub-step does nothing. -/
lemma companyStep_not_person {lead : LeadData} {env : CrmEnv}
    (hp : lead.object_type ≠ str "person") :
    companyStep lead env = (leadDataToDict lead, []) := by
  unfold companyStep
  simp [hp]

/-- When the company-create POST fails, `_create_or_get_company` returns
`(None, None)` and the data dict is left without any link information;
exactly one company POST was still issued. -/
lemma companyStep_create_error (lead : LeadData) (env : CrmEnv) {er : HttpErr}
    (hc : env.companyCreate = .error er) :
    companyStep lead env = (leadDataToDict lead,
      if lead.object_type = str "person" && truthy lead.company
      then [(createOrGetCompany env ((leadDataToDict lead).company.getD [])
              ((leadDataToDict lead).notes.getD [])).2]
      else []) := by
  unfold companyStep
  by_cases h : (decide (lead.object_type = str "person") &&
      truthy (leadDataToDict lead).company) = true
  · have h' : (decide (lead.object_type = str "person") && truthy lead.company) = true := h
    rw [if_pos h, if_pos h']
    simp only [createOrGetCompany, hc]
  · have h' : ¬ (decide (lead.object_type = str "person") && truthy lead.company) = true := h
    rw [if_neg h, if_neg h']

/-- When the company-create POST succeeds, the data dict captures the
record id when one is truthy, else the resolved domain when one exists. -/
lemma companyStep_fst_create_ok {lead : LeadData} {env : CrmEnv} {rec : CompanyRec}
    (hp : lead.object_type = str "person") (hcomp : truthy lead.company = true)
    (hc : env.companyCreate = .ok rec) :
    (companyStep lead env).1 =
      (match optTruthy rec.record_id with
       | some rid => { leadDataToDict lead with company_record_id := some rid }
       | none =>
         match optTruthy (searchCompanyWebsite env.search false).1 with
         | some dm => { leadDataToDict lead with company_domain := some dm }
         | none => leadDataToDict lead) := by
  unfold companyStep
  have hcond : (decide (lead.object_type = str "person") &&
      truthy (leadDataToDict lead).company) = true := by
    have h3 : truthy (leadDataToDict lead).company = truthy lead.company := rfl
    rw [h3, hcomp, hp]
    simp
  rw [if_pos hcond]
  simp only [createOrGetCompany, hc]

/-- The first record POST always carries the built payload. -/
lemma postAndHeal_head (ot : Str) (payload : AVal) (env : CrmEnv) :
    (postAndHeal ot payload env).recordPosts.head? = some payload := by
  cases h1 : env.firstPost with
  | ok rec => simp [postAndHeal, h1]
  | error e =>
    cases h2 : healSlug e with
    | none => simp [postAndHeal, h1, h2]
    | some slug =>
      cases h3 : env.attrCreate with
      | error e2 => simp [postAndHeal, h1, h2, h3]
      | ok u =>
        cases h4 : env.secondPost <;> simp [postAndHeal, h1, h2, h3, h4]

/-- At most two record POSTs ever happen. -/
lemma postAndHeal_le_two (ot : Str) (payload : AVal) (env : CrmEnv) :
    (postAndHeal ot payload env).recordPosts.length ≤ 2 := by
  cases h1 : env.firstPost with
  | ok rec => simp [postAndHeal, h1]
  | error e =>
    cases h2 : healSlug e with
    | none => simp [postAndHeal, h1, h2]
    | some slug =>
      cases h3 : env.attrCreate with
      | error e2 => simp [postAndHeal, h1, h2, h3]
      | ok u =>
        cases h4 : env.secondPost <;> simp [postAndHeal, h1, h2, h3, h4]

/-- Function `create_record` on a valid kind is the company step, the payload build
and the POST/auto-heal step. -/
lemma createRecordFlow_valid {lead : LeadData} {env : CrmEnv}
    (hv : lead.object_type ∈ validTypes) :
    createRecordFlow lead env =
      ⟨(postAndHeal lead.object_type (payloadFor lead env) env).result,
       (postAndHeal lead.object_type (payloadFor lead env) env).recordPosts,
       (postAndHeal lead.object_type (payloadFor lead env) env).attrPosts,
       (companyStep lead env).2⟩ := by
  unfold createRecordFlow
  rw [if_pos hv]

/-! ## Claim C1 -/

/-- A string starting with the regex literal contains
`Cannot find attribute`. -/
lemma containsSub_of_attrLit_prefixOf {l : Str} (h : attrLit.isPrefixOf l = true) :
    containsSub (str "Cannot find attribute") l = true := by
  have hpre : (str "Cannot find attribute").isPrefixOf l = true := by
    rw [List.isPrefixOf_iff_prefix] at h ⊢
    exact List.IsPrefix.trans (by decide) h
  cases l with
  | nil => exact absurd h (by decide)
  | cons c rest => simp [containsSub, hpre]

/-- A message in which the slug-extraction scan succeeds contains
`Cannot find attribute`. -/
lemma extract_containsGo {m s : Str} (h : extractSlugGo m = some s) :
    containsSub (str "Cannot find attribute") m = true := by
  induction m with
  | nil => simp [extractSlugGo] at h
  | cons c rest ih =>
    by_cases hp : attrLit.isPrefixOf (c :: rest) = true
    · exact containsSub_of_attrLit_prefixOf hp
    · rw [extractSlugGo, if_neg hp] at h
      have h3 := ih h
      simp [containsSub, h3]

/-- A message matched by the slug-extraction regex contains
`Cannot find attribute`, so the source's substring pre-check passes. -/
lemma extract_contains {m s : Str} (h : extractSlug m = some s) :
    containsSub (str "Cannot find attribute") m = true :=
  extract_containsGo h

/-- The auto-heal condition holds for a 400 response whose body message
matches the slug pattern. -/
lemma healSlug_eval (etext : Str) {b slug : Str} (hx : extractSlug b = some slug) :
    healSlug ⟨some ⟨400, some (some b)⟩, etext⟩ = some slug := by
  have hc := extract_contains hx
  simp [healSlug, Option.getD, hc, hx]

/-- Claim C1: when the first record POST fails with a 400 whose message
matches `Cannot find attribute with slug/ID "<slug>"`, the engine makes one
attribute-create call for that object kind with the static-table definition
(generic title-cased text field for unknown slugs), replays the identical
payload exactly once when the attribute create succeeds, and returns the
replay's record on success; if the attribute create fails, the replay
fails, or the message does not match the pattern, it raises the
`AttioAPIError` built from the original error, and it never issues a third
record POST. -/
theorem claim_C1_attribute_autoheal :
    (∀ lead env (b etext slug : Str),
      lead.object_type ∈ validTypes →
      env.firstPost = .error ⟨some ⟨400, some (some b)⟩, etext⟩ →
      extractSlug b = some slug →
      (createRecordFlow lead env).attrPosts =
        [(objectPlural lead.object_type, attributeDataFor slug)] ∧
      (∀ rec, env.attrCreate = .ok () → env.secondPost = .ok rec →
        (createRecordFlow lead env).result = .ok rec ∧
        (createRecordFlow lead env).recordPosts =
          [payloadFor lead env, payloadFor lead env]) ∧
      (∀ e2, env.attrCreate = .ok () → env.secondPost = .error e2 →
        (createRecordFlow lead env).result =
          .error (crmFailMsg lead.object_type ⟨some ⟨400, some (some b)⟩, etext⟩) ∧
        (createRecordFlow lead env).recordPosts =
          [payloadFor lead env, payloadFor lead env]) ∧
      (∀ e3, env.attrCreate = .error e3 →
        (createRecordFlow lead env).result =
          .error (crmFailMsg lead.object_type ⟨some ⟨400, some (some b)⟩, etext⟩) ∧
        (createRecordFlow lead env).recordPosts = [payloadFor lead env])) ∧
    (∀ lead env e,
      lead.object_type ∈ validTypes →
      env.firstPost = .error e → healSlug e = none →
      (createRecordFlow lead env).attrPosts = [] ∧
      (createRecordFlow lead env).recordPosts = [payloadFor lead env] ∧
      (createRecordFlow lead env).result = .error (crmFailMsg lead.object_type e)) ∧
    (∀ lead env, (createRecordFlow lead env).recordPosts.length ≤ 2) ∧
    attributeDataFor (str "job_title") =
      ⟨str "Job Title", str "job_title", str "Auto-created attribute for Job Title",
       str "text", false, false, false, .obj (af [])⟩ ∧
    (∀ s, ¬ s ∈ knownAttrSlugs →
      attributeDataFor s =
        ⟨pyTitle (s.map (fun c => if c = '_' then ' ' else c)), s,
         str "Auto-created attribute for " ++
           pyTitle (s.map (fun c => if c = '_' then ' ' else c)),
         str "text", false, false, false, .obj (af [])⟩) := by
  refine ⟨?_, ?_, ?_, by decide, ?_⟩
  · intro lead env b etext slug hv hfp hx
    have hh := healSlug_eval etext hx
    rw [createRecordFlow_valid hv]
    refine ⟨?_, ?_, ?_, ?_⟩
    · simp [postAndHeal, hfp, hh]
      cases h3 : env.attrCreate with
      | error e2 => simp
      | ok u => cases h4 : env.secondPost <;> simp
    · intro rec h3 h4
      simp [postAndHeal, hfp, hh, h3, h4]
    · intro e2 h3 h4
      simp [postAndHeal, hfp, hh, h3, h4]
    · intro e3 h3
      simp [postAndHeal, hfp, hh, h3]
  · intro lead env e hv hfp hh
    rw [createRecordFlow_valid hv]
    refine ⟨?_, ?_, ?_⟩ <;> simp [postAndHeal, hfp, hh]
  · intro lead env
    by_cases hv : lead.object_type ∈ validTypes
    · rw [createRecordFlow_valid hv]
      exact postAndHeal_le_two _ _ _
    · unfold createRecordFlow
      rw [if_neg hv]
      simp
  · intro s hs
    have h1 : s ≠ str "linkedin_url" := by intro h; exact hs (by rw [h]; decide)
    have h2 : s ≠ str "job_title" := by intro h; exact hs (by rw [h]; decide)
    have h3 : s ≠ str "location" := by intro h; exact hs (by rw [h]; decide)
    have h4 : s ≠ str "description" := by intro h; exact hs (by rw [h]; decide)
    have h5 : s ≠ str "companies" := by intro h; exact hs (by rw [h]; decide)
    simp [attributeDataFor, attrTableEntry, h1, h2, h3, h4, h5]

/-- Concrete lead for the C1 witness. -/
def c1lead : LeadData :=
  ⟨str "person", str "Sarah Chen", none, none, none, some (str "VP"), none, none,
   none, none, none⟩

/-- Concrete oracle set for the C1 witness: the first POST fails with the
missing-attribute 400, attribute creation and the replay succeed. -/
def c1env : CrmEnv :=
  ⟨fun _ => .error (str "quota"),
   .error ⟨none, str "ce"⟩,
   .error ⟨some ⟨400, some (some (str "Cannot find attribute with slug/ID \x22job_title\x22."))⟩,
          str "400 Client Error"⟩,
   .ok ⟨some (str "r2")⟩,
   .ok ()⟩

/-- Witness for C1: on the spec's own example message the engine creates the
`job_title` attribute for `people`, replays the identical payload once and
returns the created record. -/
theorem claim_C1_attribute_autoheal_witness :
    (createRecordFlow c1lead c1env).attrPosts =
      [(objectPlural c1lead.object_type, attributeDataFor (str "job_title"))] ∧
    (createRecordFlow c1lead c1env).result = .ok ⟨some (str "r2")⟩ ∧
    (createRecordFlow c1lead c1env).recordPosts =
      [payloadFor c1lead c1env, payloadFor c1lead c1env] :=
  have h := claim_C1_attribute_autoheal.1 c1lead c1env
    (str "Cannot find attribute with slug/ID \x22job_title\x22.")
    (str "400 Client Error") (str "job_title") (by decide) (by decide) (by decide)
  ⟨h.1, (h.2.1 ⟨some (str "r2")⟩ (by decide) (by decide)).1,
   (h.2.1 ⟨some (str "r2")⟩ (by decide) (by decide)).2⟩

/-! ## Claim C7 -/

/-- Payload dispatch for persons. -/
lemma buildAttio_person (d : DataDict) :
    buildAttioValues d (str "person") = buildPersonValues d := rfl

/-- Payload dispatch for companies. -/
lemma buildAttio_company (d : DataDict) :
    buildAttioValues d (str "company") = buildCompanyValues d := rfl

/-- Claim C7: when the company sub-creation POST fails during person
creation, the data dict keeps no link information, exactly one company POST
was still issued, the person payload is built without any `company` entry,
the person POST is still issued with that payload, and a successful person
POST yields the created record — the company failure never aborts. -/
theorem claim_C7_company_failure_non_blocking :
    ∀ lead env er,
      lead.object_type = str "person" → truthy lead.company = true →
      env.companyCreate = .error er →
      (companyStep lead env).1 = leadDataToDict lead ∧
      (createRecordFlow lead env).companyPosts.length = 1 ∧
      assocFind (str "company") (buildPersonValues (leadDataToDict lead)) = none ∧
      (createRecordFlow lead env).recordPosts.head? =
        some (wrapPayload (buildPersonValues (leadDataToDict lead))) ∧
      (∀ rec, env.firstPost = .ok rec → (createRecordFlow lead env).result = .ok rec) := by
  intro lead env er hp hc he
  have hv : lead.object_type ∈ validTypes := by rw [hp]; decide
  have hstep := companyStep_create_error lead env he
  have hfst : (companyStep lead env).1 = leadDataToDict lead := by rw [hstep]
  have hcond : (decide (lead.object_type = str "person") && truthy lead.company) = true := by
    rw [hp, hc]
    simp
  have hpayload : payloadFor lead env =
      wrapPayload (buildPersonValues (leadDataToDict lead)) := by
    unfold payloadFor
    rw [hfst, hp, buildAttio_person]
  refine ⟨hfst, ?_, ?_, ?_, ?_⟩
  · rw [createRecordFlow_valid hv]
    simp [hstep, hcond]
  · rw [assocFind_company_personValues]
    simp [leadDataToDict, optTruthy]
  · rw [createRecordFlow_valid hv]
    rw [show (⟨(postAndHeal lead.object_type (payloadFor lead env) env).result,
        (postAndHeal lead.object_type (payloadFor lead env) env).recordPosts,
        (postAndHeal lead.object_type (payloadFor lead env) env).attrPosts,
        (companyStep lead env).2⟩ : CrmTrace).recordPosts =
      (postAndHeal lead.object_type (payloadFor lead env) env).recordPosts from rfl]
    rw [postAndHeal_head, hpayload]
  · intro rec hfp
    rw [createRecordFlow_valid hv]
    simp [postAndHeal, hfp]

/-- Witness for C7: a person lead with a company whose company POST fails is
still created. -/
theorem claim_C7_company_failure_non_blocking_witness :
    (companyStep
        ⟨str "person", str "Ada", none, none, some (str "Acme"), none, none, none,
         none, none, none⟩
        ⟨fun _ => .error (str "x"), .error ⟨none, str "ce"⟩, .ok ⟨some (str "r1")⟩,
         .error ⟨none, str "e2"⟩, .ok ()⟩).1 =
      leadDataToDict
        ⟨str "person", str "Ada", none, none, some (str "Acme"), none, none, none,
         none, none, none⟩ ∧
    (createRecordFlow
        ⟨str "person", str "Ada", none, none, some (str "Acme"), none, none, none,
         none, none, none⟩
        ⟨fun _ => .error (str "x"), .error ⟨none, str "ce"⟩, .ok ⟨some (str "r1")⟩,
         .error ⟨none, str "e2"⟩, .ok ()⟩).result = .ok ⟨some (str "r1")⟩ :=
  have h := claim_C7_company_failure_non_blocking
    ⟨str "person", str "Ada", none, none, some (str "Acme"), none, none, none,
     none, none, none⟩
    ⟨fun _ => .error (str "x"), .error ⟨none, str "ce"⟩, .ok ⟨some (str "r1")⟩,
     .error ⟨none, str "e2"⟩, .ok ()⟩
    ⟨none, str "ce"⟩ (by decide) (by decide) (by decide)
  ⟨h.1, h.2.2.2.2 ⟨some (str "r1")⟩ (by decide)⟩

/-! ## Claim C9 -/

/-- A truthy optional value is a non-empty string. -/
lemma optTruthy_out {o : Option Str} {s : Str} (h : optTruthy o = some s) :
    s.isEmpty = false := by
  cases o with
  | none => simp [optTruthy] at h
  | some t =>
    simp only [optTruthy] at h
    by_cases ht : t.isEmpty
    · rw [if_pos ht] at h
      exact absurd h (by simp)
    · rw [if_neg ht] at h
      cases h
      simpa using ht

/-- Lemma: `optTruthy` is idempotent on its output. -/
lemma optTruthy_idem {o : Option Str} {s : Str} (h : optTruthy o = some s) :
    optTruthy (some s) = some s := by
  simp [optTruthy, optTruthy_out h]

/-- Claim C9: when the company sub-creation succeeds, a truthy record id is
captured and the person payload links by structured reference (even if a
domain was also resolved); with no usable id a resolved domain is carried
and the payload links by the domain string; with neither, no `company`
entry appears.  The person POST carries the payload built from that dict. -/
theorem claim_C9_company_link_shapes :
    ∀ lead env rec,
      lead.object_type = str "person" → truthy lead.company = true →
      env.companyCreate = .ok rec →
      ((∀ rid, optTruthy rec.record_id = some rid →
        (companyStep lead env).1 =
          { leadDataToDict lead with company_record_id := some rid } ∧
        assocFind (str "company") (buildPersonValues (companyStep lead env).1) =
          some (.arr (avs [.obj (af [(str "target_object", .s (str "companies")),
                                     (str "target_record_id", .s rid)])]))) ∧
      (optTruthy rec.record_id = none →
        (∀ dm, optTruthy (searchCompanyWebsite env.search false).1 = some dm →
          (companyStep lead env).1 =
            { leadDataToDict lead with company_domain := some dm } ∧
          assocFind (str "company") (buildPersonValues (companyStep lead env).1) =
            some (.s dm)) ∧
        (optTruthy (searchCompanyWebsite env.search false).1 = none →
          (companyStep lead env).1 = leadDataToDict lead ∧
          assocFind (str "company") (buildPersonValues (companyStep lead env).1) = none)) ∧
      (createRecordFlow lead env).recordPosts.head? =
        some (wrapPayload (buildPersonValues (companyStep lead env).1))) := by
  intro lead env rec hp hc hok
  have hv : lead.object_type ∈ validTypes := by rw [hp]; decide
  have hstep := companyStep_fst_create_ok hp hc hok
  refine ⟨?_, ?_, ?_⟩
  · intro rid hrid
    rw [hstep, hrid]
    refine ⟨rfl, ?_⟩
    rw [assocFind_company_personValues]
    simp [leadDataToDict, optTruthy, optTruthy_out hrid]
  · intro hnone
    rw [hstep, hnone]
    constructor
    · intro dm hdm
      rw [hdm]
      refine ⟨rfl, ?_⟩
      rw [assocFind_company_personValues]
      simp [leadDataToDict, optTruthy, optTruthy_out hdm]
    · intro hdm
      rw [hdm]
      refine ⟨rfl, ?_⟩
      rw [assocFind_company_personValues]
      simp [leadDataToDict, optTruthy]
  · rw [createRecordFlow_valid hv]
    rw [show (⟨(postAndHeal lead.object_type (payloadFor lead env) env).result,
        (postAndHeal lead.object_type (payloadFor lead env) env).recordPosts,
        (postAndHeal lead.object_type (payloadFor lead env) env).attrPosts,
        (companyStep lead env).2⟩ : CrmTrace).recordPosts =
      (postAndHeal lead.object_type (payloadFor lead env) env).recordPosts from rfl]
    rw [postAndHeal_head]
    unfold payloadFor
    rw [hp, buildAttio_person]

/-- Witness for C9: a successful company create with a record id makes the
person payload link by structured reference. -/
theorem claim_C9_company_link_shapes_witness :
    (companyStep
        ⟨str "person", str "Ada", none, none, some (str "Acme"), none, none, none,
         none, none, none⟩
        ⟨fun _ => .ok (str "acme.com"), .ok ⟨some (str "cid1")⟩, .ok ⟨some (str "r1")⟩,
         .error ⟨none, str "e2"⟩, .ok ()⟩).1 =
      { leadDataToDict
          ⟨str "person", str "Ada", none, none, some (str "Acme"), none, none, none,
           none, none, none⟩ with company_record_id := some (str "cid1") } ∧
    assocFind (str "company")
      (buildPersonValues
        (companyStep
          ⟨str "person", str "Ada", none, none, some (str "Acme"), none, none, none,
           none, none, none⟩
          ⟨fun _ => .ok (str "acme.com"), .ok ⟨some (str "cid1")⟩, .ok ⟨some (str "r1")⟩,
           .error ⟨none, str "e2"⟩, .ok ()⟩).1) =
      some (.arr (avs [.obj (af [(str "target_object", .s (str "companies")),
                                 (str "target_record_id", .s (str "cid1"))])])) :=
  (claim_C9_company_link_shapes
    ⟨str "person", str "Ada", none, none, some (str "Acme"), none, none, none,
     none, none, none⟩
    ⟨fun _ => .ok (str "acme.com"), .ok ⟨some (str "cid1")⟩, .ok ⟨some (str "r1")⟩,
     .error ⟨none, str "e2"⟩, .ok ()⟩
    ⟨some (str "cid1")⟩ (by decide) (by decide) (by decide)).1
    (str "cid1") (by decide)

/-! ## Claim C10 -/

/-- Python `str.split` on a separator-free string gives one part. -/
lemma splitOnChar_sepFree {sep : Char} : ∀ {a : Str}, (∀ c ∈ a, c ≠ sep) →
    splitOnChar sep a = [a] := by
  intro a
  induction a with
  | nil => intro _; rfl
  | cons c t ih =>
    intro h
    have hc : (c == sep) = false := by
      simp [h c (List.mem_cons_self c t)]
    rw [splitOnChar, if_neg (by simp [hc]), ih (fun x hx => h x (List.mem_cons_of_mem c hx))]

/-- Python `str.split` peels off the first separator-free part. -/
lemma splitOnChar_append_sep {sep : Char} : ∀ {a rest : Str}, (∀ c ∈ a, c ≠ sep) →
    splitOnChar sep (a ++ sep :: rest) = a :: splitOnChar sep rest := by
  intro a
  induction a with
  | nil =>
    intro rest _
    rw [List.nil_append, splitOnChar, if_pos (by simp)]
  | cons c t ih =>
    intro rest h
    have hc : (c == sep) = false := by
      simp [h c (List.mem_cons_self c t)]
    rw [List.cons_append, splitOnChar, if_neg (by simp [hc]),
      ih (fun x hx => h x (List.mem_cons_of_mem c hx))]

/-- Line 610 with no `@`: the whole email is used. -/
lemma emailDomain_no_at {e : Str} (h : e.contains '@' = false) : emailDomain e = e := by
  unfold emailDomain
  rw [h]
  simp

/-- Line 610 with exactly one `@`: the remainder after it. -/
lemma emailDomain_one_at {a b : Str} (ha : ∀ c ∈ a, c ≠ '@') (hb : ∀ c ∈ b, c ≠ '@') :
    emailDomain (a ++ '@' :: b) = b := by
  have hcontains : (a ++ '@' :: b).contains '@' = true := by
    simp [List.contains, List.elem_eq_mem]
  simp only [emailDomain, hcontains, if_true]
  rw [splitOnChar_append_sep ha, splitOnChar_sepFree hb]
  rfl

/-- Line 610 with two or more `@`: the segment between the first and the
second. -/
lemma emailDomain_two_at {a b c2 : Str} (ha : ∀ c ∈ a, c ≠ '@') (hb : ∀ c ∈ b, c ≠ '@') :
    emailDomain (a ++ '@' :: (b ++ '@' :: c2)) = b := by
  have hcontains : (a ++ '@' :: (b ++ '@' :: c2)).contains '@' = true := by
    simp [List.contains, List.elem_eq_mem]
  simp only [emailDomain, hcontains, if_true]
  rw [splitOnChar_append_sep ha, splitOnChar_append_sep hb]
  rfl

/-- The `domains` key does not occur in the company name entry. -/
lemma domains_notin_name (d : DataDict) :
    assocFind (str "domains") [(str "name", AVal.s (companyNameVal d))] = none := by
  simp only [assocFind]
  rw [if_neg (by decide)]

/-- The `domains` key does not occur in the locations segment. -/
lemma domains_notin_locSeg (d : DataDict) :
    assocFind (str "domains") (companyLocSeg d) = none := by
  unfold companyLocSeg
  cases optTruthy d.location
  · rfl
  · simp only [assocFind]
    rw [if_neg (by decide)]

/-- The `domains` key does not occur in the description segment. -/
lemma domains_notin_descSeg (d : DataDict) :
    assocFind (str "domains") (companyDescSeg d) = none := by
  unfold companyDescSeg
  by_cases h : (companyDescParts d).isEmpty = true
  · rw [if_pos h]
    rfl
  · rw [if_neg h]
    simp only [assocFind]
    rw [if_neg (by decide)]

/-- The company payload's `domains` entry is exactly the one derived from a
truthy email by lines 609-610. -/
lemma assocFind_domains_companyValues (d : DataDict) :
    assocFind (str "domains") (buildCompanyValues d) =
      (match optTruthy d.email with
       | some e => some (.arr (avs [.obj (af [(str "domain", .s (emailDomain e))])]))
       | none => none) := by
  unfold buildCompanyValues
  simp only [assocFind_append, domains_notin_name, domains_notin_locSeg,
    domains_notin_descSeg]
  unfold companyDomainsSeg
  cases optTruthy d.email
  · rfl
  · simp [assocFind]

/-- The `domains` entry for a truthy email. -/
lemma assocFind_domains_some {d : DataDict} {e : Str} (h : optTruthy d.email = some e) :
    assocFind (str "domains") (buildCompanyValues d) =
      some (.arr (avs [.obj (af [(str "domain", .s (emailDomain e))])])) := by
  rw [assocFind_domains_companyValues, h]

/-- Claim C10: for a company lead with a non-empty email, the payload always
carries a `domains` entry whose value is the segment between the first and
second `@` (the whole remainder for a single `@`), and the entire email
text itself when it contains no `@` at all. -/
theorem claim_C10_company_domains_from_email :
    ∀ lead env e,
      lead.object_type = str "company" → lead.email = some e → e ≠ [] →
      ((createRecordFlow lead env).recordPosts.head? =
        some (wrapPayload (buildCompanyValues (leadDataToDict lead))) ∧
      (e.contains '@' = false →
        assocFind (str "domains") (buildCompanyValues (leadDataToDict lead)) =
          some (.arr (avs [.obj (af [(str "domain", .s e)])]))) ∧
      (∀ a b, (∀ c ∈ a, c ≠ '@') → (∀ c ∈ b, c ≠ '@') → e = a ++ '@' :: b →
        assocFind (str "domains") (buildCompanyValues (leadDataToDict lead)) =
          some (.arr (avs [.obj (af [(str "domain", .s b)])]))) ∧
      (∀ a b c2, (∀ c ∈ a, c ≠ '@') → (∀ c ∈ b, c ≠ '@') →
        e = a ++ '@' :: (b ++ '@' :: c2) →
        assocFind (str "domains") (buildCompanyValues (leadDataToDict lead)) =
          some (.arr (avs [.obj (af [(str "domain", .s b)])])))) := by
  intro lead env e hk he hne
  have hv : lead.object_type ∈ validTypes := by rw [hk]; decide
  have hemail : optTruthy (leadDataToDict lead).email = some e := by
    have h1 : (leadDataToDict lead).email = some e := he
    rw [h1]
    simp [optTruthy, isEmpty_false_of_ne_nil hne]
  refine ⟨?_, ?_, ?_, ?_⟩
  · have hfst : (companyStep lead env).1 = leadDataToDict lead := by
      rw [companyStep_not_person (by rw [hk]; decide)]
    rw [createRecordFlow_valid hv]
    rw [show (⟨(postAndHeal lead.object_type (payloadFor lead env) env).result,
        (postAndHeal lead.object_type (payloadFor lead env) env).recordPosts,
        (postAndHeal lead.object_type (payloadFor lead env) env).attrPosts,
        (companyStep lead env).2⟩ : CrmTrace).recordPosts =
      (postAndHeal lead.object_type (payloadFor lead env) env).recordPosts from rfl]
    rw [postAndHeal_head]
    unfold payloadFor
    rw [hfst, hk, buildAttio_company]
  · intro hno
    rw [assocFind_domains_some hemail, emailDomain_no_at hno]
  · intro a b ha hb heq
    subst heq
    rw [assocFind_domains_some hemail, emailDomain_one_at ha hb]
  · intro a b c2 ha hb heq
    subst heq
    rw [assocFind_domains_some hemail, emailDomain_two_at ha hb]

/-- Witness for C10 on a two-`@` email: the domain is the middle segment,
and on an `@`-free email the whole text. -/
theorem claim_C10_company_domains_from_email_witness :
    assocFind (str "domains")
        (buildCompanyValues (leadDataToDict
          ⟨str "company", str "Acme", some (str "a@b.com@junk"), none, none, none,
           none, none, none, none, none⟩)) =
      some (.arr (avs [.obj (af [(str "domain", .s (str "b.com"))])])) ∧
    assocFind (str "domains")
        (buildCompanyValues (leadDataToDict
          ⟨str "company", str "Acme", some (str "nodomain"), none, none, none,
           none, none, none, none, none⟩)) =
      some (.arr (avs [.obj (af [(str "domain", .s (str "nodomain"))])])) :=
  ⟨(claim_C10_company_domains_from_email
      ⟨str "company", str "Acme", some (str "a@b.com@junk"), none, none, none,
       none, none, none, none, none⟩
      ⟨fun _ => .error (str "x"), .error ⟨none, str "ce"⟩, .ok ⟨some (str "r1")⟩,
       .ok ⟨some (str "r1")⟩, .ok ()⟩
      (str "a@b.com@junk") (by decide) (by decide) (by decide)).2.2.2
      (str "a") (str "b.com") (str "junk") (by decide) (by decide) (by decide),
   (claim_C10_company_domains_from_email
      ⟨str "company", str "Acme", some (str "nodomain"), none, none, none,
       none, none, none, none, none⟩
      ⟨fun _ => .error (str "x"), .error ⟨none, str "ce"⟩, .ok ⟨some (str "r1")⟩,
       .ok ⟨some (str "r1")⟩, .ok ()⟩
      (str "nodomain") (by decide) (by decide) (by decide)).2.1 (by decide)⟩

/-! ## Claim C8 -/

/-- The deal lead of the repository's own `__main__` test. -/
def c8lead : LeadData :=
  ⟨str "deal", str "Enterprise Deal with TechCo", none, none, some (str "TechCo"),
   none, none, none, some (PyFloat.ofInt 50000), some (str "negotiation"),
   some (str "Q1 2024 target")⟩

/-- Oracles for the C8 evaluation (the POST succeeds). -/
def c8env : CrmEnv :=
  ⟨fun _ => .error (str "x"), .error ⟨none, str "ce"⟩, .ok ⟨some (str "r1")⟩,
   .ok ⟨some (str "r1")⟩, .ok ()⟩

/-- Claim C8, evaluated at the failing input: the lead carries
`deal_value = 50000` and `deal_stage = "negotiation"`, yet the payload the
engine POSTs has NO `value` and NO `stage` entry, because
`_lead_data_to_dict` never copies those fields; had the builder's input dict
carried them, it would emit them — under the inner key `value` (not
`amount`) with the truncated integer. -/
theorem claim_C8_deal_fields_dropped :
    c8lead.deal_value = some (PyFloat.ofInt 50000) ∧
    c8lead.deal_stage = some (str "negotiation") ∧
    (createRecordFlow c8lead c8env).recordPosts =
      [wrapPayload (buildDealValues (leadDataToDict c8lead))] ∧
    (createRecordFlow c8lead c8env).result = .ok ⟨some (str "r1")⟩ ∧
    assocFind (str "value") (buildDealValues (leadDataToDict c8lead)) = none ∧
    assocFind (str "stage") (buildDealValues (leadDataToDict c8lead)) = none ∧
    assocFind (str "value")
        (buildDealValues
          { leadDataToDict c8lead with
              deal_value := some (PyFloat.ofInt 50000)
              deal_stage := some (str "negotiation") }) =
      some (.obj (af [(str "currency", .s (str "USD")), (str "value", .n 50000)])) ∧
    assocFind (str "stage")
        (buildDealValues
          { leadDataToDict c8lead with
              deal_value := some (PyFloat.ofInt 50000)
              deal_stage := some (str "negotiation") }) =
      some (.s (str "negotiation")) := by
  refine ⟨by decide, by decide, by decide, by decide, by decide, by decide, by decide,
    by decide⟩
